import Mathlib

/-!
Shallow embedding of the nordigen-cf-workers API client
(src/lib/nordigen.ts together with the runtime value shapes of
src/lib/types.ts).

The client is a thin wrapper over HTTP: a state record (credentials,
mutable header mapping, base endpoint), one generic request primitive
(makeRequest) and thin endpoint methods.  We embed it as explicit state
passing: every method takes the client state and a transport oracle
(the behaviour of the platform fetch) and returns the post state, the
list of HTTP requests it issued, and the result.  JavaScript runtime
values appearing in request bodies are modelled by a JSON value type
extended with the JavaScript undefined value, because JSON.stringify
omits object entries whose value is undefined.
-/

/-- A JSON value, as produced by response.json() and consumed by
JSON.stringify.  Numbers are modelled as integers, which covers every
numeric value appearing in the client and its specification. -/
inductive Json where
  | jnull : Json
  | jbool : Bool → Json
  | jnum : Int → Json
  | jstr : String → Json
  | jarr : List Json → Json
  | jobj : List (String × Json) → Json

/-- A JavaScript value appearing as an object-literal entry of a request
body: either the undefined value (an optional parameter that the caller
omitted) or a defined JSON value. -/
inductive JsVal where
  | undef : JsVal
  | val : Json → JsVal

/-- First-match lookup in an association list keyed by strings; models
JavaScript property access on a plain object built from the given
entries. -/
def lookupKey {α : Type} : List (String × α) → String → Option α
  | [], _ => none
  | (k0, v) :: rest, k => if k0 = k then some v else lookupKey rest k

/-- Property read on a JSON value, as JavaScript property access on a
parsed response (an access on a non-object yields undefined, modelled
as none). -/
def Json.getField : Json → String → Option Json
  | .jobj fs, k => lookupKey fs k
  | _, _ => none

/-- The entries of a JavaScript object literal that JSON.stringify
serializes: entries whose value is undefined are dropped, the rest keep
their order and values. -/
def definedFields : List (String × JsVal) → List (String × Json)
  | [] => []
  | (_, .undef) :: rest => definedFields rest
  | (k, .val j) :: rest => (k, j) :: definedFields rest

/-- Hexadecimal digit character (lowercase), for escaping control
characters the way JSON.stringify does. -/
def hexDigit (n : Nat) : Char :=
  if n < 10 then Char.ofNat (48 + n) else Char.ofNat (87 + n)

/-- Escape of a single character inside a JSON string literal,
following JSON.stringify. -/
def escChar (c : Char) : String :=
  if c = '"' then "\\\""
  else if c = '\\' then "\\\\"
  else if c = '\n' then "\\n"
  else if c = '\r' then "\\r"
  else if c = '\t' then "\\t"
  else if c = Char.ofNat 8 then "\\b"
  else if c = Char.ofNat 12 then "\\f"
  else if c.toNat < 32 then
    String.mk ['\\', 'u', '0', '0', hexDigit (c.toNat / 16), hexDigit (c.toNat % 16)]
  else String.singleton c

/-- JSON string-literal escaping of a whole string. -/
def escapeString (s : String) : String :=
  String.join (s.data.map escChar)

mutual

/-- JSON.stringify on a defined JSON value. -/
def stringifyJson : Json → String
  | .jnull => "null"
  | .jbool true => "true"
  | .jbool false => "false"
  | .jnum n => toString n
  | .jstr s => "\"" ++ escapeString s ++ "\""
  | .jarr xs => "[" ++ stringifyList xs ++ "]"
  | .jobj fs => "\x7b" ++ stringifyFields fs ++ "\x7d"

/-- Comma-separated serialization of array elements. -/
def stringifyList : List Json → String
  | [] => ""
  | [x] => stringifyJson x
  | x :: y :: xs => stringifyJson x ++ "," ++ stringifyList (y :: xs)

/-- Comma-separated serialization of object entries. -/
def stringifyFields : List (String × Json) → String
  | [] => ""
  | [(k, v)] => "\"" ++ escapeString k ++ "\":" ++ stringifyJson v
  | (k, v) :: e :: fs =>
      "\"" ++ escapeString k ++ "\":" ++ stringifyJson v ++ "," ++ stringifyFields (e :: fs)

end

/-- JSON.stringify of a JavaScript object literal: undefined-valued
entries are omitted, the remaining entries are serialized in order. -/
def stringifyBody (b : List (String × JsVal)) : String :=
  stringifyJson (.jobj (definedFields b))

mutual

/-- JavaScript string coercion of a value, as a template literal
performs it. -/
def jsCoerce : Json → String
  | .jnull => "null"
  | .jbool true => "true"
  | .jbool false => "false"
  | .jnum n => toString n
  | .jstr s => s
  | .jobj _ => "[object Object]"
  | .jarr xs => jsCoerceList xs

/-- JavaScript Array string conversion: elements joined by commas, with
null elements rendered empty. -/
def jsCoerceList : List Json → String
  | [] => ""
  | [.jnull] => ""
  | [x] => jsCoerce x
  | .jnull :: y :: xs => "," ++ jsCoerceList (y :: xs)
  | x :: y :: xs => jsCoerce x ++ "," ++ jsCoerceList (y :: xs)

end

/-- Template-literal interpolation of a possibly-undefined JavaScript
value, as in the Bearer header construction. -/
def templateToString : Option Json → String
  | none => "undefined"
  | some j => jsCoerce j

/-- Mutation of a JavaScript object property: the first entry with the
key is overwritten in place, a missing key is appended at the end, as
property assignment on a plain object behaves. -/
def setHeader : List (String × String) → String → String → List (String × String)
  | [], k, v => [(k, v)]
  | (k0, v0) :: rest, k, v =>
      if k0 = k then (k, v) :: rest else (k0, v0) :: setHeader rest k v

/-- The client state of src/lib/nordigen.ts: the two credentials, the
mutable header mapping and the base endpoint URL. -/
structure Nordigen where
  secretId : String
  secretKey : String
  headers : List (String × String)
  endpoint : String

/-- The default base endpoint of the constructor. -/
def defaultEndpoint : String := "https://ob.nordigen.com/api/v2"

/-- The constructor with an explicit endpoint argument: stores the
credentials and the endpoint and initialises the fixed headers. -/
def Nordigen.create (secretId secretKey endpoint : String) : Nordigen :=
  { secretId := secretId
    secretKey := secretKey
    headers := [("accept", "application/json"),
                ("Content-Type", "application/json"),
                ("User-Agent", "Nordigen-Node-v2")]
    endpoint := endpoint }

/-- The constructor with the endpoint argument left to its default. -/
def Nordigen.createDefault (secretId secretKey : String) : Nordigen :=
  Nordigen.create secretId secretKey defaultEndpoint

/-- An HTTP request as handed to fetch: the URL, the method, the header
mapping and the optional serialized body string. -/
structure HttpRequest where
  url : String
  method : String
  headers : List (String × String)
  body : Option String

/-- A transport-level failure of fetch (DNS, connect, TLS ...). -/
inductive TransportError where
  | connectionRefused : TransportError
  | other : String → TransportError
deriving DecidableEq

/-- An HTTP response as fetch resolves it: the status code and the
outcome of response.json(), which either yields a parsed JSON value or
raises a parse error. -/
structure HttpResponse where
  status : Nat
  jsonResult : Except String Json

/-- The behaviour of the platform fetch during a run: what each issued
request resolves to. -/
def Transport : Type := HttpRequest → Except TransportError HttpResponse

/-- A failure of one client call: either the fetch itself failed or the
response body failed to parse as JSON. -/
inductive RequestError where
  | transport : TransportError → RequestError
  | parse : String → RequestError

/-- The request makeRequest builds: URL is the plain concatenation of
the endpoint and the path, headers are the current header mapping, and
the body is attached exactly when one is given, as its JSON.stringify
serialization. -/
def buildRequest (st : Nordigen) (path method : String)
    (body : Option (List (String × JsVal))) : HttpRequest :=
  { url := st.endpoint ++ path
    method := method
    headers := st.headers
    body := body.map stringifyBody }

/-- makeRequest of src/lib/nordigen.ts: performs one fetch of the built
request and returns the parsed JSON response; the state is untouched
(the method performs no assignment), the issued-request log is the
singleton of the built request, and every failure of the fetch or of
response.json() propagates. -/
def makeRequest (t : Transport) (st : Nordigen) (path method : String)
    (body : Option (List (String × JsVal))) :
    Nordigen × List HttpRequest × Except RequestError Json :=
  match t (buildRequest st path method body) with
  | .error e => (st, [buildRequest st path method body], .error (.transport e))
  | .ok resp =>
      match resp.jsonResult with
      | .error pe => (st, [buildRequest st path method body], .error (.parse pe))
      | .ok j => (st, [buildRequest st path method body], .ok j)

/-- The body of the token request: the credential pair under snake_case
keys. -/
def tokenBody (st : Nordigen) : List (String × JsVal) :=
  [("secret_id", .val (.jstr st.secretId)),
   ("secret_key", .val (.jstr st.secretKey))]

/-- generateToken of src/lib/nordigen.ts: POST of the credential pair
to /token/new/; on success the Authorization header is assigned the
template string of Bearer and the access field of the response; on
failure the await raises before the assignment, leaving the state
unchanged. -/
def generateToken (t : Transport) (st : Nordigen) :
    Nordigen × List HttpRequest × Except RequestError Unit :=
  match makeRequest t st "/token/new/" "POST" (some (tokenBody st)) with
  | (st1, log, .error e) => (st1, log, .error e)
  | (st1, log, .ok resp) =>
      ({ st1 with
          headers := setHeader st1.headers "Authorization"
            ("Bearer " ++ templateToString (resp.getField "access")) },
       log, .ok ())

/-- getInstitutions: GET of /institutions/?country= with the country
code interpolated verbatim. -/
def getInstitutions (t : Transport) (st : Nordigen) (countryCode : String) :
    Nordigen × List HttpRequest × Except RequestError Json :=
  makeRequest t st ("/institutions/?country=" ++ countryCode) "GET" none

/-- The caller's parameters of createEndUserAgreement; the optional
ones are undefined when omitted. -/
structure AgreementParams where
  institutionId : String
  maxHistoricalDays : Option Int
  accessValidForDays : Option Int
  accessScope : Option (List String)

/-- A possibly-omitted parameter as the JavaScript value placed in a
body object literal. -/
def optJs (o : Option Json) : JsVal :=
  match o with
  | none => .undef
  | some j => .val j

/-- The object literal createEndUserAgreement passes to makeRequest:
the caller's parameters under snake_case keys, omitted optional
parameters being undefined. -/
def agreementBody (p : AgreementParams) : List (String × JsVal) :=
  [("institution_id", .val (.jstr p.institutionId)),
   ("max_historical_days", optJs (p.maxHistoricalDays.map Json.jnum)),
   ("access_valid_for_days", optJs (p.accessValidForDays.map Json.jnum)),
   ("access_scope", optJs (p.accessScope.map (fun xs => Json.jarr (xs.map Json.jstr))))]

/-- createEndUserAgreement: POST of the agreement body to
/agreements/enduser/; the parsed response is returned as is (the
result-type ascription of the source performs no runtime conversion). -/
def createEndUserAgreement (t : Transport) (st : Nordigen) (p : AgreementParams) :
    Nordigen × List HttpRequest × Except RequestError Json :=
  makeRequest t st "/agreements/enduser/" "POST" (some (agreementBody p))

/-- The caller's parameters of createRequisition.  The agreement
parameter is declared EndUserAgreement in the source; its runtime value
(the parsed JSON record the caller holds) is what flows into the body,
so it is modelled as a JSON value. -/
structure RequisitionParams where
  redirect : String
  institutionId : String
  reference : Option String
  agreement : Option Json
  userLanguage : Option String
  accountSelection : Option Bool

/-- The object literal createRequisition passes to makeRequest: the
caller's parameters under snake_case keys; the agreement value is
placed whole under the agreement key. -/
def requisitionBody (p : RequisitionParams) : List (String × JsVal) :=
  [("redirect", .val (.jstr p.redirect)),
   ("institution_id", .val (.jstr p.institutionId)),
   ("reference", optJs (p.reference.map Json.jstr)),
   ("agreement", optJs p.agreement),
   ("user_language", optJs (p.userLanguage.map Json.jstr)),
   ("account_selection", optJs (p.accountSelection.map Json.jbool))]

/-- createRequisition: POST of the requisition body to /requisitions/. -/
def createRequisition (t : Transport) (st : Nordigen) (p : RequisitionParams) :
    Nordigen × List HttpRequest × Except RequestError Json :=
  makeRequest t st "/requisitions/" "POST" (some (requisitionBody p))

/-- getRequisitionInfo: GET of /requisitions/ with the requisition id
interpolated verbatim. -/
def getRequisitionInfo (t : Transport) (st : Nordigen) (requisitionId : String) :
    Nordigen × List HttpRequest × Except RequestError Json :=
  makeRequest t st ("/requisitions/" ++ requisitionId ++ "/") "GET" none

/-- getAccountBalances: GET of the balances path of the account id,
interpolated verbatim. -/
def getAccountBalances (t : Transport) (st : Nordigen) (accountId : String) :
    Nordigen × List HttpRequest × Except RequestError Json :=
  makeRequest t st ("/accounts/" ++ accountId ++ "/balances/") "GET" none

/-- getAccountTransactions: GET of the transactions path of the account
id, interpolated verbatim. -/
def getAccountTransactions (t : Transport) (st : Nordigen) (accountId : String) :
    Nordigen × List HttpRequest × Except RequestError Json :=
  makeRequest t st ("/accounts/" ++ accountId ++ "/transactions/") "GET" none

/-- getAccountDetails: GET of the details path of the account id,
interpolated verbatim. -/
def getAccountDetails (t : Transport) (st : Nordigen) (accountId : String) :
    Nordigen × List HttpRequest × Except RequestError Json :=
  makeRequest t st ("/accounts/" ++ accountId ++ "/details/") "GET" none

/-- Assigning a header and then reading the same key yields the
assigned value. -/
theorem lookupKey_setHeader_same (hs : List (String × String)) (k v : String) :
    lookupKey (setHeader hs k v) k = some v := by
  induction hs with
  | nil => simp [setHeader, lookupKey]
  | cons kv rest ih =>
      obtain ⟨k0, v0⟩ := kv
      by_cases h : k0 = k
      · simp [setHeader, lookupKey, h]
      · simp [setHeader, lookupKey, h, ih]

/-- Assigning a header leaves the reads of every other key unchanged. -/
theorem lookupKey_setHeader_other (hs : List (String × String)) (k k' v : String)
    (hne : k' ≠ k) : lookupKey (setHeader hs k v) k' = lookupKey hs k' := by
  induction hs with
  | nil =>
      simp only [setHeader, lookupKey]
      rw [if_neg fun h => hne h.symm]
  | cons kv rest ih =>
      obtain ⟨k0, v0⟩ := kv
      by_cases h : k0 = k
      · subst h
        simp only [setHeader, if_pos rfl, lookupKey]
        rw [if_neg fun h2 => hne h2.symm, if_neg fun h2 => hne h2.symm]
      · simp only [setHeader, if_neg h, lookupKey, ih]

/-- makeRequest leaves the client state untouched. -/
theorem makeRequest_state (t : Transport) (st : Nordigen) (path method : String)
    (body : Option (List (String × JsVal))) :
    (makeRequest t st path method body).1 = st := by
  unfold makeRequest
  cases t (buildRequest st path method body) with
  | error e => rfl
  | ok resp =>
      obtain ⟨status, jr⟩ := resp
      cases jr <;> rfl

/-- makeRequest issues exactly the one built request. -/
theorem makeRequest_log (t : Transport) (st : Nordigen) (path method : String)
    (body : Option (List (String × JsVal))) :
    (makeRequest t st path method body).2.1 = [buildRequest st path method body] := by
  unfold makeRequest
  cases t (buildRequest st path method body) with
  | error e => rfl
  | ok resp =>
      obtain ⟨status, jr⟩ := resp
      cases jr <;> rfl

/-- When the fetch resolves and its body parses, makeRequest returns the
parsed value, the untouched state and the singleton request log. -/
theorem makeRequest_ok (t : Transport) (st : Nordigen) (path method : String)
    (body : Option (List (String × JsVal))) (resp : HttpResponse) (j : Json)
    (hfetch : t (buildRequest st path method body) = .ok resp)
    (hjson : resp.jsonResult = .ok j) :
    makeRequest t st path method body =
      (st, [buildRequest st path method body], .ok j) := by
  simp [makeRequest, hfetch, hjson]

/-- When the fetch fails, makeRequest propagates the transport error. -/
theorem makeRequest_transport_error (t : Transport) (st : Nordigen)
    (path method : String) (body : Option (List (String × JsVal)))
    (e : TransportError)
    (hfetch : t (buildRequest st path method body) = .error e) :
    makeRequest t st path method body =
      (st, [buildRequest st path method body], .error (.transport e)) := by
  simp [makeRequest, hfetch]

/-- When the response body fails to parse, makeRequest propagates the
parse error. -/
theorem makeRequest_parse_error (t : Transport) (st : Nordigen)
    (path method : String) (body : Option (List (String × JsVal)))
    (resp : HttpResponse) (pe : String)
    (hfetch : t (buildRequest st path method body) = .ok resp)
    (hjson : resp.jsonResult = .error pe) :
    makeRequest t st path method body =
      (st, [buildRequest st path method body], .error (.parse pe)) := by
  simp [makeRequest, hfetch, hjson]

/-- The token-endpoint response of the specification's mock provider. -/
def tokenResponseJson : Json :=
  Json.jobj [("access", .jstr "T"), ("access_expires", .jnum 86400),
             ("refresh", .jstr "R"), ("refresh_expires", .jnum 2592000)]

/-- A transport whose every response is the mock token response. -/
def tokenTransport : Transport :=
  fun _ => .ok { status := 200, jsonResult := .ok tokenResponseJson }

/-- C1: generateToken POSTs the credential pair to /token/new/ and, when
the token endpoint responds with an access token, sets the Authorization
header to Bearer followed by the access token; every request built from
the resulting state carries that Authorization header. -/
theorem c1_generateToken_bearer (t : Transport) (st : Nordigen)
    (resp : HttpResponse) (j : Json) (tok : String)
    (hfetch : t (buildRequest st "/token/new/" "POST" (some (tokenBody st))) = .ok resp)
    (hjson : resp.jsonResult = .ok j)
    (haccess : j.getField "access" = some (.jstr tok)) :
    (buildRequest st "/token/new/" "POST" (some (tokenBody st))).url
        = st.endpoint ++ "/token/new/"
    ∧ (buildRequest st "/token/new/" "POST" (some (tokenBody st))).method = "POST"
    ∧ (buildRequest st "/token/new/" "POST" (some (tokenBody st))).body
        = some (stringifyJson (.jobj
            [("secret_id", .jstr st.secretId), ("secret_key", .jstr st.secretKey)]))
    ∧ ∃ st2, generateToken t st
          = (st2, [buildRequest st "/token/new/" "POST" (some (tokenBody st))], .ok ())
        ∧ lookupKey st2.headers "Authorization" = some ("Bearer " ++ tok)
        ∧ ∀ path method body,
            lookupKey (buildRequest st2 path method body).headers "Authorization"
              = some ("Bearer " ++ tok) := by
  have hmr := makeRequest_ok t st "/token/new/" "POST" (some (tokenBody st)) resp j
    hfetch hjson
  refine ⟨rfl, rfl, rfl,
    { st with headers := (setHeader st.headers "Authorization"
        ("Bearer " ++ templateToString (j.getField "access"))) }, ?_, ?_, ?_⟩
  · unfold generateToken
    rw [hmr]
  · rw [haccess]
    exact lookupKey_setHeader_same st.headers "Authorization" _
  · intro path method body
    rw [haccess]
    exact lookupKey_setHeader_same st.headers "Authorization" _

/-- C1 witness: with the mock token provider of the specification, the
state after generateToken reads back Authorization as Bearer T. -/
theorem c1_generateToken_bearer_witness :
    lookupKey (generateToken tokenTransport
        (Nordigen.createDefault "sid" "skey")).1.headers "Authorization"
      = some "Bearer T" := by
  obtain ⟨st2, heq, hlook, hall⟩ :=
    (c1_generateToken_bearer tokenTransport (Nordigen.createDefault "sid" "skey")
      { status := 200, jsonResult := .ok tokenResponseJson } tokenResponseJson "T"
      rfl rfl rfl).2.2.2
  rw [heq]
  exact hlook

/-- C2: makeRequest issues exactly one request, whose URL is the plain
concatenation of the base endpoint and the path; the constructor default
endpoint is the production URL and an explicit endpoint overrides it; no
body is attached when none is given, and a given body is attached as
exactly its JSON serialization (undefined entries omitted, nothing
added); when the fetch resolves and its body parses, the parsed JSON is
returned to the caller. -/
theorem c2_makeRequest_request_shape (t : Transport) (st : Nordigen)
    (path method : String) (body : Option (List (String × JsVal)))
    (sid sk e : String) :
    (makeRequest t st path method body).2.1 = [buildRequest st path method body]
    ∧ (buildRequest st path method body).url = st.endpoint ++ path
    ∧ (Nordigen.createDefault sid sk).endpoint = "https://ob.nordigen.com/api/v2"
    ∧ (Nordigen.create sid sk e).endpoint = e
    ∧ (body = none → (buildRequest st path method body).body = none)
    ∧ (∀ b, body = some b →
        (buildRequest st path method body).body
          = some (stringifyJson (.jobj (definedFields b))))
    ∧ (∀ resp j, t (buildRequest st path method body) = .ok resp →
        resp.jsonResult = .ok j →
        (makeRequest t st path method body).2.2 = .ok j) := by
  refine ⟨makeRequest_log t st path method body, rfl, rfl, rfl, ?_, ?_, ?_⟩
  · intro h
    rw [h]
    rfl
  · intro b h
    rw [h]
    rfl
  · intro resp j hfetch hjson
    rw [makeRequest_ok t st path method body resp j hfetch hjson]

/-- C2 witness: a concrete POST serializes its body to exactly the
expected JSON text, and the parsed mock response is returned. -/
theorem c2_makeRequest_request_shape_witness :
    (buildRequest (Nordigen.createDefault "sid" "skey") "/token/new/" "POST"
        (some [("secret_id", JsVal.val (.jstr "sid")),
               ("secret_key", JsVal.val (.jstr "skey"))])).body
      = some "\x7b\"secret_id\":\"sid\",\"secret_key\":\"skey\"\x7d"
    ∧ (makeRequest tokenTransport (Nordigen.createDefault "sid" "skey") "/token/new/"
        "POST" (some [("secret_id", JsVal.val (.jstr "sid")),
                      ("secret_key", JsVal.val (.jstr "skey"))])).2.2
      = .ok tokenResponseJson := by
  have h := c2_makeRequest_request_shape tokenTransport
    (Nordigen.createDefault "sid" "skey") "/token/new/" "POST"
    (some [("secret_id", JsVal.val (.jstr "sid")),
           ("secret_key", JsVal.val (.jstr "skey"))])
    "sid" "skey" "https://alt.example.org"
  refine ⟨?_, ?_⟩
  · rw [h.2.2.2.2.2.1 _ rfl]
    rfl
  · exact h.2.2.2.2.2.2 { status := 200, jsonResult := .ok tokenResponseJson }
      tokenResponseJson rfl rfl

/-- A transport that refuses every connection. -/
def refusedTransport : Transport :=
  fun _ => .error .connectionRefused

/-- C3: the client never inspects status codes and never retries.  A
transport failure propagates unmodified after the one request; a JSON
parse failure propagates unmodified; two fetches whose responses carry
the same body-parse outcome but different status codes (a 4xx error
body versus a 200 success body) give identical results; and the
propagation holds for an endpoint method (getInstitutions) as well. -/
theorem c3_no_status_no_retry (t1 t2 : Transport) (st : Nordigen)
    (path method : String) (body : Option (List (String × JsVal)))
    (cc : String) :
    (∀ e, t1 (buildRequest st path method body) = .error e →
        makeRequest t1 st path method body
          = (st, [buildRequest st path method body], .error (.transport e)))
    ∧ (∀ status pe, t1 (buildRequest st path method body)
          = .ok { status := status, jsonResult := .error pe } →
        makeRequest t1 st path method body
          = (st, [buildRequest st path method body], .error (.parse pe)))
    ∧ (∀ s1 s2 jr, t1 (buildRequest st path method body)
          = .ok { status := s1, jsonResult := jr } →
        t2 (buildRequest st path method body)
          = .ok { status := s2, jsonResult := jr } →
        makeRequest t1 st path method body = makeRequest t2 st path method body)
    ∧ (∀ e, t1 (buildRequest st ("/institutions/?country=" ++ cc) "GET" none)
          = .error e →
        getInstitutions t1 st cc
          = (st, [buildRequest st ("/institutions/?country=" ++ cc) "GET" none],
             .error (.transport e))) := by
  refine ⟨?_, ?_, ?_, ?_⟩
  · intro e h
    exact makeRequest_transport_error t1 st path method body e h
  · intro status pe h
    exact makeRequest_parse_error t1 st path method body _ pe h rfl
  · intro s1 s2 jr h1 h2
    cases jr with
    | error pe =>
        rw [makeRequest_parse_error t1 st path method body _ pe h1 rfl,
            makeRequest_parse_error t2 st path method body _ pe h2 rfl]
    | ok j =>
        rw [makeRequest_ok t1 st path method body _ j h1 rfl,
            makeRequest_ok t2 st path method body _ j h2 rfl]
  · intro e h
    exact makeRequest_transport_error t1 st ("/institutions/?country=" ++ cc)
      "GET" none e h

/-- C3 witness: a refused connection on getInstitutions propagates as a
transport failure after exactly one request, and a 400 status with the
same JSON body as a 200 status produces the identical parsed result. -/
theorem c3_no_status_no_retry_witness :
    getInstitutions refusedTransport (Nordigen.createDefault "sid" "skey") "NL"
      = (Nordigen.createDefault "sid" "skey",
         [buildRequest (Nordigen.createDefault "sid" "skey")
            "/institutions/?country=NL" "GET" none],
         .error (.transport .connectionRefused))
    ∧ makeRequest (fun _ => .ok { status := 400, jsonResult := .ok tokenResponseJson })
        (Nordigen.createDefault "sid" "skey") "/token/new/" "POST" none
      = makeRequest (fun _ => .ok { status := 200, jsonResult := .ok tokenResponseJson })
        (Nordigen.createDefault "sid" "skey") "/token/new/" "POST" none := by
  have h := c3_no_status_no_retry refusedTransport
    (fun _ => .ok { status := 200, jsonResult := .ok tokenResponseJson })
    (Nordigen.createDefault "sid" "skey") "/token/new/" "POST" none "NL"
  refine ⟨h.2.2.2 .connectionRefused rfl, ?_⟩
  have h2 := c3_no_status_no_retry
    (fun _ => .ok { status := 400, jsonResult := .ok tokenResponseJson })
    (fun _ => .ok { status := 200, jsonResult := .ok tokenResponseJson })
    (Nordigen.createDefault "sid" "skey") "/token/new/" "POST" none "NL"
  exact h2.2.2.1 400 200 (.ok tokenResponseJson) rfl rfl

/-- The institutions list of the specification's mock provider for
country NL. -/
def institutionsNLJson : Json :=
  Json.jarr [Json.jobj [("id", .jstr "ABNAMRO_ABNANL2A"), ("name", .jstr "ABN AMRO"),
    ("bic", .jstr "ABNANL2A"), ("transaction_total_days", .jstr "540"),
    ("countries", .jarr [.jstr "NL"]), ("logo", .jstr "https://example.org/abn.png")]]

/-- The balances structure of the specification's mock provider. -/
def balancesJson : Json :=
  Json.jobj [("balances", Json.jarr [Json.jobj
    [("balanceAmount", Json.jobj [("currency", .jstr "EUR"), ("amount", .jstr "12.34")]),
     ("balanceType", .jstr "expected"),
     ("referenceDate", .jstr "2024-01-01")]])]

/-- A mock provider serving the balances structure on the ACC1 balances
URL and the NL institutions list on every other URL. -/
def nlBalancesTransport : Transport :=
  fun req =>
    if req.url = "https://ob.nordigen.com/api/v2/accounts/ACC1/balances/" then
      .ok { status := 200, jsonResult := .ok balancesJson }
    else
      .ok { status := 200, jsonResult := .ok institutionsNLJson }

/-- C5: the GET endpoint methods return the parsed response JSON
verbatim and request the documented path template: getInstitutions
requests the institutions path with the country code appended and
returns the provider's value unmodified, and getAccountBalances
requests the balances path of the account id and returns the structure
verbatim. -/
theorem c5_get_endpoints_verbatim (t : Transport) (st : Nordigen) (cc accId : String)
    (respI respB : HttpResponse) (jI jB : Json)
    (hI : t (buildRequest st ("/institutions/?country=" ++ cc) "GET" none) = .ok respI)
    (hI2 : respI.jsonResult = .ok jI)
    (hB : t (buildRequest st ("/accounts/" ++ accId ++ "/balances/") "GET" none)
      = .ok respB)
    (hB2 : respB.jsonResult = .ok jB) :
    getInstitutions t st cc
      = (st, [buildRequest st ("/institutions/?country=" ++ cc) "GET" none], .ok jI)
    ∧ (buildRequest st ("/institutions/?country=" ++ cc) "GET" none).url
      = st.endpoint ++ "/institutions/?country=" ++ cc
    ∧ getAccountBalances t st accId
      = (st, [buildRequest st ("/accounts/" ++ accId ++ "/balances/") "GET" none],
         .ok jB)
    ∧ (buildRequest st ("/accounts/" ++ accId ++ "/balances/") "GET" none).url
      = st.endpoint ++ "/accounts/" ++ accId ++ "/balances/" := by
  refine ⟨makeRequest_ok t st _ "GET" none respI jI hI hI2, ?_,
    makeRequest_ok t st _ "GET" none respB jB hB hB2, ?_⟩
  · exact (String.append_assoc st.endpoint "/institutions/?country=" cc).symm
  · show st.endpoint ++ ("/accounts/" ++ accId ++ "/balances/")
      = st.endpoint ++ "/accounts/" ++ accId ++ "/balances/"
    simp [String.append_assoc]

/-- C5 witness: with the specification's mock provider, the NL
institutions list and the balances structure come back verbatim and the
requested URLs are the documented templates. -/
theorem c5_get_endpoints_verbatim_witness :
    (getInstitutions nlBalancesTransport (Nordigen.createDefault "sid" "skey") "NL").2.2
      = .ok institutionsNLJson
    ∧ ((getInstitutions nlBalancesTransport
        (Nordigen.createDefault "sid" "skey") "NL").2.1.map HttpRequest.url)
      = ["https://ob.nordigen.com/api/v2/institutions/?country=NL"]
    ∧ (getAccountBalances nlBalancesTransport
        (Nordigen.createDefault "sid" "skey") "ACC1").2.2
      = .ok balancesJson := by
  have h := c5_get_endpoints_verbatim nlBalancesTransport
    (Nordigen.createDefault "sid" "skey") "NL" "ACC1"
    { status := 200, jsonResult := .ok institutionsNLJson }
    { status := 200, jsonResult := .ok balancesJson }
    institutionsNLJson balancesJson rfl rfl rfl rfl
  refine ⟨?_, ?_, ?_⟩
  · rw [h.1]
  · rw [h.1]
    rfl
  · rw [h.2.2.1]

/-- C6: every request carries the fixed headers accept,
Content-Type and the constant user-agent string; the Authorization
header is absent from every request built before generateToken has run
and present on every request built after it succeeds, with the fixed
headers still in place. -/
theorem c6_fixed_headers (sid sk e : String) (t : Transport) (st2 : Nordigen)
    (log : List HttpRequest)
    (hsucc : generateToken t (Nordigen.create sid sk e) = (st2, log, .ok ())) :
    (Nordigen.create sid sk e).headers
      = [("accept", "application/json"), ("Content-Type", "application/json"),
         ("User-Agent", "Nordigen-Node-v2")]
    ∧ (∀ path method body,
        (buildRequest (Nordigen.create sid sk e) path method body).headers
          = (Nordigen.create sid sk e).headers)
    ∧ (∀ path method body,
        lookupKey (buildRequest (Nordigen.create sid sk e) path method body).headers
          "Authorization" = none)
    ∧ (∀ path method body, ∃ v,
        lookupKey (buildRequest st2 path method body).headers "Authorization" = some v)
    ∧ (∀ path method body,
        lookupKey (buildRequest st2 path method body).headers "accept"
            = some "application/json"
        ∧ lookupKey (buildRequest st2 path method body).headers "Content-Type"
            = some "application/json"
        ∧ lookupKey (buildRequest st2 path method body).headers "User-Agent"
            = some "Nordigen-Node-v2") := by
  unfold generateToken at hsucc
  cases h1 : t (buildRequest (Nordigen.create sid sk e) "/token/new/" "POST"
      (some (tokenBody (Nordigen.create sid sk e)))) with
  | error er =>
      rw [makeRequest_transport_error t (Nordigen.create sid sk e) _ _ _ er h1] at hsucc
      simp at hsucc
  | ok resp =>
      cases h2 : resp.jsonResult with
      | error pe =>
          rw [makeRequest_parse_error t (Nordigen.create sid sk e) _ _ _ resp pe h1 h2]
            at hsucc
          simp at hsucc
      | ok j =>
          rw [makeRequest_ok t (Nordigen.create sid sk e) _ _ _ resp j h1 h2] at hsucc
          simp only [Prod.mk.injEq] at hsucc
          obtain ⟨hst, -, -⟩ := hsucc
          subst hst
          refine ⟨rfl, fun path method body => rfl, fun path method body => rfl,
            fun path method body => ⟨_, lookupKey_setHeader_same _ _ _⟩,
            fun path method body => ⟨?_, ?_, ?_⟩⟩
          · exact (lookupKey_setHeader_other _ "Authorization" "accept" _
              (by decide)).trans rfl
          · exact (lookupKey_setHeader_other _ "Authorization" "Content-Type" _
              (by decide)).trans rfl
          · exact (lookupKey_setHeader_other _ "Authorization" "User-Agent" _
              (by decide)).trans rfl

/-- C6 witness: after a successful generateToken against the mock token
provider, a request still carries the fixed headers and now carries an
Authorization header. -/
theorem c6_fixed_headers_witness :
    lookupKey (buildRequest (generateToken tokenTransport
        (Nordigen.create "sid" "skey" "https://alt.example.org")).1
        "/institutions/?country=NL" "GET" none).headers "accept"
      = some "application/json"
    ∧ (∃ v, lookupKey (buildRequest (generateToken tokenTransport
        (Nordigen.create "sid" "skey" "https://alt.example.org")).1
        "/institutions/?country=NL" "GET" none).headers "Authorization" = some v) := by
  have h := c6_fixed_headers "sid" "skey" "https://alt.example.org" tokenTransport
    (generateToken tokenTransport
      (Nordigen.create "sid" "skey" "https://alt.example.org")).1
    (generateToken tokenTransport
      (Nordigen.create "sid" "skey" "https://alt.example.org")).2.1
    rfl
  exact ⟨(h.2.2.2.2 "/institutions/?country=NL" "GET" none).1,
    h.2.2.2.1 "/institutions/?country=NL" "GET" none⟩

/-- A concrete agreement record as the caller holds it after
createEndUserAgreement (the parsed JSON of an EndUserAgreement). -/
def sampleAgreementRecord : Json :=
  Json.jobj [("id", .jstr "AGR1"), ("created", .jstr "2024-01-01"),
    ("accepted", .jnull), ("max_historical_days", .jnum 90),
    ("access_valid_for_days", .jnum 90), ("enduser_id", .jstr "E1"),
    ("aspsp_id", .jstr "A1")]

/-- A concrete createRequisition parameter set passing that agreement
record. -/
def sampleRequisitionParams : RequisitionParams :=
  { redirect := "https://example.com/cb"
    institutionId := "BANK_X"
    reference := none
    agreement := some sampleAgreementRecord
    userLanguage := some "NL"
    accountSelection := none }

set_option maxRecDepth 4000 in
/-- C4, evaluation at the failing input: the serialized requisition
body places the entire agreement record under the agreement key — the
serialized text embeds the whole record object — rather than the
record's id string, which is what the claim (and the method's own doc
comment, which speaks of end user agreement IDs) describes. -/
theorem c4_agreement_embedded_whole :
    lookupKey (definedFields (requisitionBody sampleRequisitionParams)) "agreement"
      = some sampleAgreementRecord
    ∧ sampleAgreementRecord.getField "id" = some (.jstr "AGR1")
    ∧ some sampleAgreementRecord ≠ some (Json.jstr "AGR1")
    ∧ stringifyBody (requisitionBody sampleRequisitionParams)
      = "\x7b\"redirect\":\"https://example.com/cb\",\"institution_id\":\"BANK_X\",\"agreement\":\x7b\"id\":\"AGR1\",\"created\":\"2024-01-01\",\"accepted\":null,\"max_historical_days\":90,\"access_valid_for_days\":90,\"enduser_id\":\"E1\",\"aspsp_id\":\"A1\"\x7d,\"user_language\":\"NL\"\x7d" := by
  refine ⟨rfl, rfl, ?_, rfl⟩
  intro h
  exact Json.noConfusion (Option.some.inj h)

/-- C7: round-trip of request-body serialization for createRequisition
and createEndUserAgreement: mandatory parameters and present optional
parameters appear among the serialized entries with exactly their given
values, and absent optional parameters yield no entry at all (in
particular, no null entry). -/
theorem c7_optional_fields_roundtrip (p : RequisitionParams) (q : AgreementParams) :
    lookupKey (definedFields (requisitionBody p)) "redirect"
      = some (.jstr p.redirect)
    ∧ lookupKey (definedFields (requisitionBody p)) "institution_id"
      = some (.jstr p.institutionId)
    ∧ (∀ r, p.reference = some r →
        lookupKey (definedFields (requisitionBody p)) "reference" = some (.jstr r))
    ∧ (p.reference = none →
        lookupKey (definedFields (requisitionBody p)) "reference" = none)
    ∧ (∀ a, p.agreement = some a →
        lookupKey (definedFields (requisitionBody p)) "agreement" = some a)
    ∧ (p.agreement = none →
        lookupKey (definedFields (requisitionBody p)) "agreement" = none)
    ∧ (∀ l, p.userLanguage = some l →
        lookupKey (definedFields (requisitionBody p)) "user_language"
          = some (.jstr l))
    ∧ (p.userLanguage = none →
        lookupKey (definedFields (requisitionBody p)) "user_language" = none)
    ∧ (∀ b, p.accountSelection = some b →
        lookupKey (definedFields (requisitionBody p)) "account_selection"
          = some (.jbool b))
    ∧ (p.accountSelection = none →
        lookupKey (definedFields (requisitionBody p)) "account_selection" = none)
    ∧ (∀ n, q.maxHistoricalDays = some n →
        lookupKey (definedFields (agreementBody q)) "max_historical_days"
          = some (.jnum n))
    ∧ (q.maxHistoricalDays = none →
        lookupKey (definedFields (agreementBody q)) "max_historical_days" = none)
    ∧ (∀ n, q.accessValidForDays = some n →
        lookupKey (definedFields (agreementBody q)) "access_valid_for_days"
          = some (.jnum n))
    ∧ (q.accessValidForDays = none →
        lookupKey (definedFields (agreementBody q)) "access_valid_for_days" = none)
    ∧ (∀ sc, q.accessScope = some sc →
        lookupKey (definedFields (agreementBody q)) "access_scope"
          = some (.jarr (sc.map Json.jstr)))
    ∧ (q.accessScope = none →
        lookupKey (definedFields (agreementBody q)) "access_scope" = none) := by
  obtain ⟨red, iid, oref, oagr, olang, osel⟩ := p
  obtain ⟨qiid, omh, oav, osc⟩ := q
  cases oref <;> cases oagr <;> cases olang <;> cases osel <;>
    cases omh <;> cases oav <;> cases osc <;>
    refine ⟨rfl, rfl, ?_, ?_, ?_, ?_, ?_, ?_, ?_, ?_, ?_, ?_, ?_, ?_, ?_, ?_⟩ <;>
    first
      | rfl
      | (intro r h; cases h <;> rfl)
      | (intro h; cases h <;> rfl)

/-- C7 witness: a concrete mixed parameter set: present optional fields
are serialized with their values, absent ones produce no entry. -/
theorem c7_optional_fields_roundtrip_witness :
    lookupKey (definedFields (requisitionBody
      { redirect := "https://example.com/cb", institutionId := "BANK_X",
        reference := some "ref-1", agreement := none,
        userLanguage := some "NL", accountSelection := none })) "reference"
      = some (.jstr "ref-1")
    ∧ lookupKey (definedFields (requisitionBody
      { redirect := "https://example.com/cb", institutionId := "BANK_X",
        reference := some "ref-1", agreement := none,
        userLanguage := some "NL", accountSelection := none })) "agreement"
      = none
    ∧ lookupKey (definedFields (agreementBody
      { institutionId := "BANK_X", maxHistoricalDays := some 180,
        accessValidForDays := none, accessScope := some ["balances", "details"] }))
        "access_scope"
      = some (.jarr [.jstr "balances", .jstr "details"])
    ∧ lookupKey (definedFields (agreementBody
      { institutionId := "BANK_X", maxHistoricalDays := some 180,
        accessValidForDays := none, accessScope := some ["balances", "details"] }))
        "access_valid_for_days"
      = none := by
  have h := c7_optional_fields_roundtrip
    { redirect := "https://example.com/cb", institutionId := "BANK_X",
      reference := some "ref-1", agreement := none,
      userLanguage := some "NL", accountSelection := none }
    { institutionId := "BANK_X", maxHistoricalDays := some 180,
      accessValidForDays := none, accessScope := some ["balances", "details"] }
  refine ⟨h.2.2.1 "ref-1" rfl, h.2.2.2.2.2.1 rfl, ?_, ?_⟩
  · exact h.2.2.2.2.2.2.2.2.2.2.2.2.2.2.1 ["balances", "details"] rfl
  · exact h.2.2.2.2.2.2.2.2.2.2.2.2.2.1 rfl

/-- C8: frame property on client state.  Every operation other than
generateToken returns the state unchanged; generateToken on failure
leaves the state unchanged, and on success changes nothing but the
Authorization entry of the header mapping: the credentials, the
endpoint and every other header entry read back unchanged. -/
theorem c8_frame (t : Transport) (st : Nordigen) (path method : String)
    (body : Option (List (String × JsVal))) (cc rid aid : String)
    (ap : AgreementParams) (rp : RequisitionParams) :
    (makeRequest t st path method body).1 = st
    ∧ (getInstitutions t st cc).1 = st
    ∧ (createEndUserAgreement t st ap).1 = st
    ∧ (createRequisition t st rp).1 = st
    ∧ (getRequisitionInfo t st rid).1 = st
    ∧ (getAccountBalances t st aid).1 = st
    ∧ (getAccountTransactions t st aid).1 = st
    ∧ (getAccountDetails t st aid).1 = st
    ∧ (∀ st2 log e, generateToken t st = (st2, log, .error e) → st2 = st)
    ∧ (∀ st2 log, generateToken t st = (st2, log, .ok ()) →
        st2.secretId = st.secretId ∧ st2.secretKey = st.secretKey
        ∧ st2.endpoint = st.endpoint
        ∧ ∀ k, k ≠ "Authorization" →
            lookupKey st2.headers k = lookupKey st.headers k) := by
  refine ⟨makeRequest_state t st path method body,
    makeRequest_state t st _ "GET" none,
    makeRequest_state t st _ "POST" _,
    makeRequest_state t st _ "POST" _,
    makeRequest_state t st _ "GET" none,
    makeRequest_state t st _ "GET" none,
    makeRequest_state t st _ "GET" none,
    makeRequest_state t st _ "GET" none, ?_, ?_⟩
  · intro st2 log e hgen
    unfold generateToken at hgen
    cases h1 : t (buildRequest st "/token/new/" "POST" (some (tokenBody st))) with
    | error er =>
        rw [makeRequest_transport_error t st _ _ _ er h1] at hgen
        simp only [Prod.mk.injEq] at hgen
        exact hgen.1.symm
    | ok resp =>
        cases h2 : resp.jsonResult with
        | error pe =>
            rw [makeRequest_parse_error t st _ _ _ resp pe h1 h2] at hgen
            simp only [Prod.mk.injEq] at hgen
            exact hgen.1.symm
        | ok j =>
            rw [makeRequest_ok t st _ _ _ resp j h1 h2] at hgen
            simp at hgen
  · intro st2 log hgen
    unfold generateToken at hgen
    cases h1 : t (buildRequest st "/token/new/" "POST" (some (tokenBody st))) with
    | error er =>
        rw [makeRequest_transport_error t st _ _ _ er h1] at hgen
        simp at hgen
    | ok resp =>
        cases h2 : resp.jsonResult with
        | error pe =>
            rw [makeRequest_parse_error t st _ _ _ resp pe h1 h2] at hgen
            simp at hgen
        | ok j =>
            rw [makeRequest_ok t st _ _ _ resp j h1 h2] at hgen
            simp only [Prod.mk.injEq] at hgen
            obtain ⟨hst, -, -⟩ := hgen
            subst hst
            refine ⟨rfl, rfl, rfl, ?_⟩
            intro k hk
            exact lookupKey_setHeader_other st.headers "Authorization" k _ hk

/-- C8 witness: a read endpoint leaves the state unchanged, a failed
generateToken leaves the state unchanged, and a successful
generateToken leaves the User-Agent header unchanged. -/
theorem c8_frame_witness :
    (getAccountBalances refusedTransport (Nordigen.createDefault "s" "k") "ACC1").1
      = Nordigen.createDefault "s" "k"
    ∧ (generateToken refusedTransport (Nordigen.createDefault "s" "k")).1
      = Nordigen.createDefault "s" "k"
    ∧ lookupKey (generateToken tokenTransport
        (Nordigen.createDefault "s" "k")).1.headers "User-Agent"
      = some "Nordigen-Node-v2" := by
  have h := c8_frame refusedTransport (Nordigen.createDefault "s" "k")
    "/token/new/" "POST" none "NL" "R1" "ACC1"
    { institutionId := "BANK_X", maxHistoricalDays := none,
      accessValidForDays := none, accessScope := none }
    sampleRequisitionParams
  refine ⟨h.2.2.2.2.2.1, ?_, ?_⟩
  · exact h.2.2.2.2.2.2.2.2.1
      (generateToken refusedTransport (Nordigen.createDefault "s" "k")).1
      (generateToken refusedTransport (Nordigen.createDefault "s" "k")).2.1
      (.transport .connectionRefused) rfl
  · have h2 := c8_frame tokenTransport (Nordigen.createDefault "s" "k")
      "/token/new/" "POST" none "NL" "R1" "ACC1"
      { institutionId := "BANK_X", maxHistoricalDays := none,
        accessValidForDays := none, accessScope := none }
      sampleRequisitionParams
    have h3 := h2.2.2.2.2.2.2.2.2.2
      (generateToken tokenTransport (Nordigen.createDefault "s" "k")).1
      (generateToken tokenTransport (Nordigen.createDefault "s" "k")).2.1
      rfl
    exact (h3.2.2.2 "User-Agent" (by decide)).trans rfl

/-- C9: path parameters are interpolated into the URL templates
verbatim: for every country code, requisition id and account id — URL
reserved characters included — the requested URL is exactly the plain
string concatenation of the endpoint, the template prefix, the raw
parameter and the template suffix. -/
theorem c9_paths_verbatim_concatenation (t : Transport) (st : Nordigen)
    (cc rid aid : String) :
    ((getInstitutions t st cc).2.1.map HttpRequest.url)
      = [st.endpoint ++ ("/institutions/?country=" ++ cc)]
    ∧ ((getRequisitionInfo t st rid).2.1.map HttpRequest.url)
      = [st.endpoint ++ ("/requisitions/" ++ rid ++ "/")]
    ∧ ((getAccountBalances t st aid).2.1.map HttpRequest.url)
      = [st.endpoint ++ ("/accounts/" ++ aid ++ "/balances/")]
    ∧ ((getAccountTransactions t st aid).2.1.map HttpRequest.url)
      = [st.endpoint ++ ("/accounts/" ++ aid ++ "/transactions/")]
    ∧ ((getAccountDetails t st aid).2.1.map HttpRequest.url)
      = [st.endpoint ++ ("/accounts/" ++ aid ++ "/details/")] := by
  refine ⟨?_, ?_, ?_, ?_, ?_⟩ <;>
    · simp only [getInstitutions, getRequisitionInfo, getAccountBalances,
        getAccountTransactions, getAccountDetails]
      rw [makeRequest_log]
      rfl

/-- C9 witness: an account id holding a slash and a question mark lands
verbatim in the URL, which therefore leaves the documented template. -/
theorem c9_paths_verbatim_concatenation_witness :
    ((getAccountBalances refusedTransport (Nordigen.createDefault "s" "k")
        "X/../Y?q=1").2.1.map HttpRequest.url)
      = ["https://ob.nordigen.com/api/v2/accounts/X/../Y?q=1/balances/"] := by
  have h := (c9_paths_verbatim_concatenation refusedTransport
    (Nordigen.createDefault "s" "k") "NL" "R" "X/../Y?q=1").2.2.1
  exact h.trans (by rfl)

/-- The agreement record of the specification's mock provider, with
string created and null accepted timestamps as JSON parsing leaves
them. -/
def agreementResponseJson : Json :=
  Json.jobj [("id", .jstr "AGR1"), ("created", .jstr "2024-01-02T03:04:05Z"),
    ("accepted", .jnull), ("max_historical_days", .jnum 180),
    ("access_valid_for_days", .jnum 90), ("enduser_id", .jstr "E1"),
    ("aspsp_id", .jstr "A1")]

/-- A transport whose every response is that agreement record. -/
def agreementTransport : Transport :=
  fun _ => .ok { status := 200, jsonResult := .ok agreementResponseJson }

/-- C10: createEndUserAgreement returns the parsed JSON response
unchanged: whatever value the parse produced for the created and
accepted fields — strings and null, never date values — is exactly what
the caller receives. -/
theorem c10_createEndUserAgreement_verbatim (t : Transport) (st : Nordigen)
    (p : AgreementParams) (resp : HttpResponse) (j : Json)
    (hfetch : t (buildRequest st "/agreements/enduser/" "POST"
      (some (agreementBody p))) = .ok resp)
    (hjson : resp.jsonResult = .ok j) :
    createEndUserAgreement t st p
      = (st, [buildRequest st "/agreements/enduser/" "POST" (some (agreementBody p))],
         .ok j)
    ∧ (∀ s, j.getField "created" = some (.jstr s) →
        ∃ jr, (createEndUserAgreement t st p).2.2 = .ok jr
          ∧ jr.getField "created" = some (.jstr s))
    ∧ (∀ a, j.getField "accepted" = some a →
        ∃ jr, (createEndUserAgreement t st p).2.2 = .ok jr
          ∧ jr.getField "accepted" = some a) := by
  have hmr := makeRequest_ok t st "/agreements/enduser/" "POST"
    (some (agreementBody p)) resp j hfetch hjson
  have h22 : (createEndUserAgreement t st p).2.2 = .ok j :=
    congrArg (fun x => x.2.2) hmr
  exact ⟨hmr, fun s hs => ⟨j, h22, hs⟩, fun a ha => ⟨j, h22, ha⟩⟩

/-- C10 witness: with the mock agreement provider, the created field of
the returned value is the very string of the response and the accepted
field is null. -/
theorem c10_createEndUserAgreement_verbatim_witness :
    (∃ jr, (createEndUserAgreement agreementTransport
        (Nordigen.createDefault "s" "k")
        { institutionId := "BANK_X", maxHistoricalDays := some 180,
          accessValidForDays := none, accessScope := none }).2.2 = .ok jr
      ∧ jr.getField "created" = some (.jstr "2024-01-02T03:04:05Z"))
    ∧ (∃ jr, (createEndUserAgreement agreementTransport
        (Nordigen.createDefault "s" "k")
        { institutionId := "BANK_X", maxHistoricalDays := some 180,
          accessValidForDays := none, accessScope := none }).2.2 = .ok jr
      ∧ jr.getField "accepted" = some Json.jnull) := by
  have h := c10_createEndUserAgreement_verbatim agreementTransport
    (Nordigen.createDefault "s" "k")
    { institutionId := "BANK_X", maxHistoricalDays := some 180,
      accessValidForDays := none, accessScope := none }
    { status := 200, jsonResult := .ok agreementResponseJson }
    agreementResponseJson rfl rfl
  exact ⟨h.2.1 "2024-01-02T03:04:05Z" rfl, h.2.2 Json.jnull rfl⟩
